import Mathlib

/-! Verification of the risk-calculation core of the SANBI Ecosystem Risk Atlas.

The definitions below are a shallow embedding of `src/utils/risk_calculations.py`
and of the static tables in `src/app/config.py`.  Python floats are modelled as
rationals (ℚ), Python ints as ℤ, Python dicts keyed by strings become if-chains
on `String` returning `Option`-wrapped records (`dict.get` with a default becomes
`Option.getD`), and Python dicts used as fixed-shape records become Lean
structures.  Definitions named `spec...` restate the specification's wording and
are proved equivalent to the embedded code.
-/

/-- One entry of `ECOSYSTEM_RISK_THRESHOLDS` (config.py lines 39-72): the five
named cutoffs of a risk dimension. -/
structure Thresholds where
  critical : ℚ
  high : ℚ
  moderate : ℚ
  low : ℚ
  minimal : ℚ
deriving DecidableEq, Repr

/-- The static threshold table `ECOSYSTEM_RISK_THRESHOLDS` of config.py
(lines 37-73), as a finite map from dimension name to its cutoffs. -/
def ECOSYSTEM_RISK_THRESHOLDS (risk_type : String) : Option Thresholds :=
  if risk_type = "habitat_loss" then
    some ⟨4.0, 2.0, 1.0, 0.5, 0.1⟩
  else if risk_type = "annual_decline" then
    some ⟨0.4, 0.2, 0.1, 0.05, 0.01⟩
  else if risk_type = "transformation" then
    some ⟨50.0, 25.0, 15.0, 10.0, 5.0⟩
  else if risk_type = "protection_gap" then
    some ⟨80.0, 60.0, 40.0, 20.0, 10.0⟩
  else
    none

/-- `get_risk_level_by_threshold` (risk_calculations.py lines 9-34): looks the
dimension up in the table (an empty lookup gives "minimal"), then compares the
value against the cutoffs from most severe downward, inclusively (`>=`). -/
def get_risk_level_by_threshold (risk_type : String) (value : ℚ) : String :=
  match ECOSYSTEM_RISK_THRESHOLDS risk_type with
  | none => "minimal"
  | some thresholds =>
    if value ≥ thresholds.critical then "critical"
    else if value ≥ thresholds.high then "high"
    else if value ≥ thresholds.moderate then "moderate"
    else if value ≥ thresholds.low then "low"
    else "minimal"

/-- One entry of `THREAT_LEVELS` (config.py lines 76-83). -/
structure ThreatLevel where
  name : String
  color : String
  priority : ℤ
deriving DecidableEq, Repr

/-- The static IUCN table `THREAT_LEVELS` of config.py (lines 76-83); note the
table itself contains an entry for the empty-string code. -/
def THREAT_LEVELS (code : String) : Option ThreatLevel :=
  if code = "CR" then some ⟨"Critically Endangered", "#d73027", 5⟩
  else if code = "EN" then some ⟨"Endangered", "#f46d43", 4⟩
  else if code = "VU" then some ⟨"Vulnerable", "#fdae61", 3⟩
  else if code = "NT" then some ⟨"Near Threatened", "#fee08b", 2⟩
  else if code = "LC" then some ⟨"Least Concern", "#abdda4", 1⟩
  else if code = "" then some ⟨"Data Deficient", "#cccccc", 0⟩
  else none

/-- The local `descriptions` dict of `get_threat_level_info`
(risk_calculations.py lines 62-68). -/
def threatDescriptions (code : String) : Option String :=
  if code = "CR" then some "Facing extremely high risk of extinction in the wild"
  else if code = "EN" then some "Facing very high risk of extinction in the wild"
  else if code = "VU" then some "Facing high risk of extinction in the wild"
  else if code = "NT" then some "Close to qualifying for threatened category"
  else if code = "LC" then some "Widespread and abundant, lowest risk category"
  else none

/-- The record returned by `get_threat_level_info`: the `THREAT_LEVELS` fields
merged with a description and the echoed code. -/
structure ThreatInfo where
  name : String
  color : String
  priority : ℤ
  description : String
  code : String
deriving DecidableEq, Repr

/-- `get_threat_level_info` (risk_calculations.py lines 50-74):
`THREAT_LEVELS.get(code, THREAT_LEVELS.get('', {}))` merged with a
per-code description (defaulting to the data-deficient text) and the code. -/
def get_threat_level_info (threat_code : String) : ThreatInfo :=
  let base := (THREAT_LEVELS threat_code).getD ((THREAT_LEVELS "").getD ⟨"", "", 0⟩)
  let descr := (threatDescriptions threat_code).getD "Classification pending or data deficient"
  ⟨base.name, base.color, base.priority, descr, threat_code⟩

/-- The record returned by `get_protection_level_info`. -/
structure ProtectionInfo where
  name : String
  color : String
  description : String
  status : String
deriving DecidableEq, Repr

/-- `get_protection_level_info` (risk_calculations.py lines 76-118): the local
`protection_info` dict looked up with an "Unknown" fallback record. -/
def get_protection_level_info (protection_code : String) : ProtectionInfo :=
  if protection_code = "WP" then
    ⟨"Well Protected", "#2166ac", "Exceeds biodiversity conservation target", "success"⟩
  else if protection_code = "MP" then
    ⟨"Moderately Protected", "#abdda4", "50-99% of biodiversity target protected", "moderate"⟩
  else if protection_code = "PP" then
    ⟨"Poorly Protected", "#fdae61", "5-49% of biodiversity target protected", "warning"⟩
  else if protection_code = "NP" then
    ⟨"Not Protected", "#d73027", "Less than 5% of biodiversity target protected", "critical"⟩
  else
    ⟨"Unknown", "#cccccc", "Protection status unknown", "unknown"⟩

/-- `calculate_composite_risk_score` (risk_calculations.py lines 120-159):
IUCN dict score plus the strictly-banded decline score plus the
strictly-banded transformation score. -/
def calculate_composite_risk_score (iucn_code : String) (annual_decline : ℚ)
    (transformation_pct : ℚ) : ℤ :=
  (if iucn_code = "CR" then 50
   else if iucn_code = "EN" then 30
   else if iucn_code = "VU" then 15
   else if iucn_code = "NT" then 5
   else if iucn_code = "LC" then 0
   else 0)
  + (if annual_decline > 0.3 then 25
     else if annual_decline > 0.2 then 15
     else if annual_decline > 0.1 then 10
     else if annual_decline > 0.05 then 5
     else 0)
  + (if transformation_pct > 50 then 25
     else if transformation_pct > 25 then 15
     else if transformation_pct > 15 then 10
     else 0)

/-- The record returned by `categorize_ecosystem_urgency`. -/
structure UrgencyResult where
  category : String
  color : String
  urgency_score : ℤ
  timeframe : String
  recommended_actions : List String
deriving DecidableEq, Repr

/-- `categorize_ecosystem_urgency` (risk_calculations.py lines 332-405):
accumulates the four urgency contributions into `urgency_score`, then selects
the category record by descending score thresholds. -/
def categorize_ecosystem_urgency (iucn_code : String) (annual_decline : ℚ)
    (current_natural : ℚ) (protection_level : String) : UrgencyResult :=
  let s1 : ℤ := 0 +
    (if iucn_code = "CR" then 4
     else if iucn_code = "EN" then 3
     else if iucn_code = "VU" then 2
     else if iucn_code = "NT" then 1
     else if iucn_code = "LC" then 0
     else 0)
  let s2 : ℤ := s1 +
    (if annual_decline > 0.3 then 3
     else if annual_decline > 0.1 then 2
     else if annual_decline > 0.05 then 1
     else 0)
  let s3 : ℤ := s2 +
    (if current_natural < 30 then 3
     else if current_natural < 50 then 2
     else if current_natural < 70 then 1
     else 0)
  let urgency_score : ℤ := s3 +
    (if protection_level = "NP" then 2
     else if protection_level = "PP" then 1
     else if protection_level = "MP" then 0
     else if protection_level = "WP" then -1
     else 0)
  if urgency_score ≥ 8 then
    ⟨"Emergency", "#8B0000", urgency_score, "Immediate (0-1 years)",
     ["Emergency intervention", "Immediate threat mitigation", "Expert assessment"]⟩
  else if urgency_score ≥ 6 then
    ⟨"Critical", "#d73027", urgency_score, "Urgent (1-3 years)",
     ["Priority conservation", "Threat assessment", "Management plan"]⟩
  else if urgency_score ≥ 4 then
    ⟨"High", "#f46d43", urgency_score, "High priority (3-5 years)",
     ["Active management", "Monitoring program", "Threat reduction"]⟩
  else if urgency_score ≥ 2 then
    ⟨"Moderate", "#fdae61", urgency_score, "Regular monitoring (5-10 years)",
     ["Regular monitoring", "Preventive measures", "Research needs"]⟩
  else
    ⟨"Low", "#abdda4", urgency_score, "Stable management",
     ["Maintain current protection", "Periodic assessment"]⟩

/-- The record returned by `calculate_performance_vs_national`; the two input
echo fields are optional because the zero-national branch omits them. -/
structure PerfResult where
  category : String
  color : String
  delta : ℚ
  delta_formatted : String
  performance_ratio : ℚ
  local_value : Option ℚ
  national_value : Option ℚ
deriving DecidableEq, Repr

/-- Fixed-point decimal rendering of a rational, modelling Python's
`f"{delta:.1f}"` / `f"{delta:.2f}"` format specifiers. -/
def formatFixed (q : ℚ) (prec : ℕ) : String :=
  let scaled : ℤ := round (q * (10 : ℚ) ^ prec)
  let sgn := if scaled < 0 then "-" else ""
  let n := scaled.natAbs
  let ip := n / 10 ^ prec
  let fp := n % 10 ^ prec
  let fps := toString fp
  let pad := String.mk (List.replicate (prec - fps.length) '0')
  sgn ++ toString ip ++ "." ++ pad ++ fps

/-- `calculate_performance_vs_national` (risk_calculations.py lines 210-286):
zero national value short-circuits to the neutral record; otherwise the
category is chosen by the metric direction and the ratio bands, and the
delta is formatted with a "pp" suffix. -/
def calculate_performance_vs_national (local_value : ℚ) (national_value : ℚ)
    (metric_type : String) : PerfResult :=
  if national_value = 0 then
    ⟨"No Comparison", "#cccccc", 0, "N/A", 1.0, none, none⟩
  else
    let delta := local_value - national_value
    let r := local_value / national_value
    let better_when_higher :=
      metric_type = "habitat" ∨ metric_type = "protection" ∨ metric_type = "natural"
    let better_when_lower :=
      metric_type = "threat" ∨ metric_type = "decline" ∨
        metric_type = "transformation" ∨ metric_type = "loss"
    let cc : String × String :=
      if better_when_lower then
        if r ≤ 0.7 then ("Much Better", "#2166ac")
        else if r ≤ 0.9 then ("Better", "#abdda4")
        else if r ≤ 1.1 then ("Similar", "#ffffbf")
        else if r ≤ 1.3 then ("Worse", "#fdae61")
        else ("Much Worse", "#d73027")
      else if better_when_higher then
        if r ≥ 1.3 then ("Much Better", "#2166ac")
        else if r ≥ 1.1 then ("Better", "#abdda4")
        else if r ≥ 0.9 then ("Similar", "#ffffbf")
        else if r ≥ 0.7 then ("Worse", "#fdae61")
        else ("Much Worse", "#d73027")
      else
        if abs (r - 1) ≤ 0.1 then ("Similar", "#ffffbf")
        else if abs (r - 1) ≤ 0.3 then ("Moderate Difference", "#fdae61")
        else ("Large Difference", "#d73027")
    let delta_sign := if delta > 0 then "+" else ""
    let delta_formatted :=
      if abs delta ≥ 1 then delta_sign ++ formatFixed delta 1 ++ "pp"
      else delta_sign ++ formatFixed delta 2 ++ "pp"
    ⟨cc.1, cc.2, delta, delta_formatted, r, some local_value, some national_value⟩

/-- Specification wording (C1): the fixed IUCN threat sub-score table. -/
def specThreatScore (t : String) : ℤ :=
  if t = "CR" then 50
  else if t = "EN" then 30
  else if t = "VU" then 15
  else if t = "NT" then 5
  else if t = "LC" then 0
  else 0

/-- Specification wording (C1): the strictly-banded decline sub-score. -/
def specDeclineScore (d : ℚ) : ℤ :=
  if d > 0.3 then 25
  else if d > 0.2 then 15
  else if d > 0.1 then 10
  else if d > 0.05 then 5
  else 0

/-- Specification wording (C1): the strictly-banded transformation sub-score. -/
def specTransformationScore (p : ℚ) : ℤ :=
  if p > 50 then 25
  else if p > 25 then 15
  else if p > 15 then 10
  else 0

/-- Severity rank of a risk-level string under the order
critical > high > moderate > low > minimal. -/
def severityRank (level : String) : ℕ :=
  if level = "critical" then 4
  else if level = "high" then 3
  else if level = "moderate" then 2
  else if level = "low" then 1
  else 0

/-- Specification wording (C9): scan (severity, cutoff) pairs in the given
order and return the first severity whose cutoff the value reaches. -/
def firstMatchLevel : List (String × ℚ) → ℚ → String
  | [], _ => "minimal"
  | (name, cutoff) :: rest, v => if v ≥ cutoff then name else firstMatchLevel rest v

/-- The most-severe-first consultation order of a dimension's cutoffs
(the "minimal" cutoff is never consulted by the classifier). -/
def severityCutoffList (t : Thresholds) : List (String × ℚ) :=
  [("critical", t.critical), ("high", t.high), ("moderate", t.moderate), ("low", t.low)]

/-- Specification wording (C3): the IUCN urgency contribution. -/
def specUrgencyThreat (t : String) : ℤ :=
  if t = "CR" then 4
  else if t = "EN" then 3
  else if t = "VU" then 2
  else if t = "NT" then 1
  else if t = "LC" then 0
  else 0

/-- Specification wording (C3): the decline-rate urgency contribution. -/
def specUrgencyDecline (d : ℚ) : ℤ :=
  if d > 0.3 then 3
  else if d > 0.1 then 2
  else if d > 0.05 then 1
  else 0

/-- Specification wording (C3): the remaining-habitat urgency contribution. -/
def specUrgencyHabitat (n : ℚ) : ℤ :=
  if n < 30 then 3
  else if n < 50 then 2
  else if n < 70 then 1
  else 0

/-- Specification wording (C3): the protection urgency contribution. -/
def specUrgencyProtection (c : String) : ℤ :=
  if c = "NP" then 2
  else if c = "PP" then 1
  else if c = "MP" then 0
  else if c = "WP" then -1
  else 0

/-- Specification wording (C3): the category selected from the accumulated
urgency score by descending thresholds. -/
def specUrgencyCategory (s : ℤ) : String :=
  if s ≥ 8 then "Emergency"
  else if s ≥ 6 then "Critical"
  else if s ≥ 4 then "High"
  else if s ≥ 2 then "Moderate"
  else "Low"

/-- Specification wording (C3): the fixed timeframe string of each category. -/
def specUrgencyTimeframe (c : String) : String :=
  if c = "Emergency" then "Immediate (0-1 years)"
  else if c = "Critical" then "Urgent (1-3 years)"
  else if c = "High" then "High priority (3-5 years)"
  else if c = "Moderate" then "Regular monitoring (5-10 years)"
  else "Stable management"

/-- Specification wording (C3): the fixed ordered action list of each category. -/
def specUrgencyActions (c : String) : List String :=
  if c = "Emergency" then
    ["Emergency intervention", "Immediate threat mitigation", "Expert assessment"]
  else if c = "Critical" then
    ["Priority conservation", "Threat assessment", "Management plan"]
  else if c = "High" then
    ["Active management", "Monitoring program", "Threat reduction"]
  else if c = "Moderate" then
    ["Regular monitoring", "Preventive measures", "Research needs"]
  else
    ["Maintain current protection", "Periodic assessment"]

/-- Specification wording (C3): the full per-score urgency record, used to
relate the embedded function to the specification in one equation. -/
def specUrgencyResult (s : ℤ) : UrgencyResult :=
  if s ≥ 8 then
    ⟨"Emergency", "#8B0000", s, "Immediate (0-1 years)",
     ["Emergency intervention", "Immediate threat mitigation", "Expert assessment"]⟩
  else if s ≥ 6 then
    ⟨"Critical", "#d73027", s, "Urgent (1-3 years)",
     ["Priority conservation", "Threat assessment", "Management plan"]⟩
  else if s ≥ 4 then
    ⟨"High", "#f46d43", s, "High priority (3-5 years)",
     ["Active management", "Monitoring program", "Threat reduction"]⟩
  else if s ≥ 2 then
    ⟨"Moderate", "#fdae61", s, "Regular monitoring (5-10 years)",
     ["Regular monitoring", "Preventive measures", "Research needs"]⟩
  else
    ⟨"Low", "#abdda4", s, "Stable management",
     ["Maintain current protection", "Periodic assessment"]⟩

/-- Specification wording (C4): category bands when lower values are better. -/
def specLowerCategory (r : ℚ) : String :=
  if r ≤ 0.7 then "Much Better"
  else if r ≤ 0.9 then "Better"
  else if r ≤ 1.1 then "Similar"
  else if r ≤ 1.3 then "Worse"
  else "Much Worse"

/-- Specification wording (C4): category bands when higher values are better. -/
def specHigherCategory (r : ℚ) : String :=
  if r ≥ 1.3 then "Much Better"
  else if r ≥ 1.1 then "Better"
  else if r ≥ 0.9 then "Similar"
  else if r ≥ 0.7 then "Worse"
  else "Much Worse"

/-- Specification wording (C4): direction-agnostic category bands. -/
def specDefaultCategory (r : ℚ) : String :=
  if abs (r - 1) ≤ 0.1 then "Similar"
  else if abs (r - 1) ≤ 0.3 then "Moderate Difference"
  else "Large Difference"

/-- The composite score is definitionally the sum of the three sub-scores. -/
lemma composite_eq_sum (t : String) (d p : ℚ) :
    calculate_composite_risk_score t d p
      = specThreatScore t + specDeclineScore d + specTransformationScore p := rfl

lemma specThreatScore_range (t : String) :
    0 ≤ specThreatScore t ∧ specThreatScore t ≤ 50 := by
  unfold specThreatScore
  split_ifs <;> decide

lemma specDeclineScore_range (d : ℚ) :
    0 ≤ specDeclineScore d ∧ specDeclineScore d ≤ 25 := by
  unfold specDeclineScore
  split_ifs <;> decide

lemma specTransformationScore_range (p : ℚ) :
    0 ≤ specTransformationScore p ∧ specTransformationScore p ≤ 25 := by
  unfold specTransformationScore
  split_ifs <;> decide

/-- C1: calculate_composite_risk_score is the sum of the fixed threat-table
score, the strictly-banded decline score and the strictly-banded
transformation score; the bands are strict, so at annual_decline exactly 0.3
the decline contribution is 15, and score("EN",0.25,30)=60,
score("LC",0,0)=0, score("CR",0.31,51)=100. -/
theorem C1_composite_is_sum_of_banded_subscores :
    (∀ t d p, calculate_composite_risk_score t d p
        = specThreatScore t + specDeclineScore d + specTransformationScore p)
    ∧ specDeclineScore 0.3 = 15
    ∧ calculate_composite_risk_score "LC" 0.3 0 = 15
    ∧ calculate_composite_risk_score "EN" 0.25 30 = 60
    ∧ calculate_composite_risk_score "LC" 0 0 = 0
    ∧ calculate_composite_risk_score "CR" 0.31 51 = 100 := by
  refine ⟨fun t d p => rfl, ?_, ?_, ?_, ?_, ?_⟩ <;>
    · norm_num [calculate_composite_risk_score, specDeclineScore]
      try decide

/-- C8: the composite score always lies in [0,100]; it is 100 exactly when all
three sub-scores are maximal, and 0 when all three sub-scores are 0. -/
theorem C8_composite_score_range :
    ∀ t d p,
      (0 ≤ calculate_composite_risk_score t d p
        ∧ calculate_composite_risk_score t d p ≤ 100)
      ∧ (calculate_composite_risk_score t d p = 100 ↔
          specThreatScore t = 50 ∧ specDeclineScore d = 25 ∧ specTransformationScore p = 25)
      ∧ ((specThreatScore t = 0 ∧ specDeclineScore d = 0 ∧ specTransformationScore p = 0) →
          calculate_composite_risk_score t d p = 0) := by
  intro t d p
  have h := composite_eq_sum t d p
  have h1 := specThreatScore_range t
  have h2 := specDeclineScore_range d
  have h3 := specTransformationScore_range p
  have h4 : specThreatScore t = 50 ∨ specThreatScore t ≤ 30 := by
    unfold specThreatScore
    split_ifs <;> decide
  omega

/-- Witness for C8 at a concrete input: all-zero sub-scores give score 0. -/
theorem C8_composite_score_range_witness :
    calculate_composite_risk_score "LC" 0.04 14 = 0 :=
  (C8_composite_score_range "LC" 0.04 14).2.2
    ⟨by decide, by norm_num [specDeclineScore], by norm_num [specTransformationScore]⟩

/-- C5: a zero national value short-circuits to the neutral record (category
"No Comparison", delta 0, ratio 1.0) for every local value and metric type;
the embedded function is total and never reaches the division. -/
theorem C5_zero_national_is_neutral :
    ∀ l mt, calculate_performance_vs_national l 0 mt =
      ⟨"No Comparison", "#cccccc", 0, "N/A", 1.0, none, none⟩ := by
  intro l mt
  simp [calculate_performance_vs_national]

/-- C10: the zero-national branch omits the input-echo fields and formats the
delta as "N/A"; the nonzero branch echoes both inputs and produces a
"pp"-suffixed delta string. -/
theorem C10_result_shape_differs_between_branches :
    (∀ l mt,
        (calculate_performance_vs_national l 0 mt).local_value = none
        ∧ (calculate_performance_vs_national l 0 mt).national_value = none
        ∧ (calculate_performance_vs_national l 0 mt).delta_formatted = "N/A")
    ∧ ∀ l n mt, n ≠ 0 →
        (calculate_performance_vs_national l n mt).local_value = some l
        ∧ (calculate_performance_vs_national l n mt).national_value = some n
        ∧ ∃ s, (calculate_performance_vs_national l n mt).delta_formatted = s ++ "pp" := by
  constructor
  · intro l mt
    simp [calculate_performance_vs_national]
  · intro l n mt hn
    simp only [calculate_performance_vs_national, hn, if_false, ite_false]
    refine ⟨trivial, trivial, ?_⟩
    split_ifs <;> exact ⟨_, rfl⟩

lemma table_habitat_loss :
    ECOSYSTEM_RISK_THRESHOLDS "habitat_loss" = some ⟨4.0, 2.0, 1.0, 0.5, 0.1⟩ := rfl

lemma table_annual_decline :
    ECOSYSTEM_RISK_THRESHOLDS "annual_decline" = some ⟨0.4, 0.2, 0.1, 0.05, 0.01⟩ := rfl

lemma table_transformation :
    ECOSYSTEM_RISK_THRESHOLDS "transformation" = some ⟨50.0, 25.0, 15.0, 10.0, 5.0⟩ := rfl

lemma table_protection_gap :
    ECOSYSTEM_RISK_THRESHOLDS "protection_gap" = some ⟨80.0, 60.0, 40.0, 20.0, 10.0⟩ := rfl

/-- The threshold table has exactly four entries, with the config.py cutoffs. -/
lemma table_cases (rt : String) (th : Thresholds)
    (h : ECOSYSTEM_RISK_THRESHOLDS rt = some th) :
    (rt = "habitat_loss" ∧ th = ⟨4.0, 2.0, 1.0, 0.5, 0.1⟩)
    ∨ (rt = "annual_decline" ∧ th = ⟨0.4, 0.2, 0.1, 0.05, 0.01⟩)
    ∨ (rt = "transformation" ∧ th = ⟨50.0, 25.0, 15.0, 10.0, 5.0⟩)
    ∨ (rt = "protection_gap" ∧ th = ⟨80.0, 60.0, 40.0, 20.0, 10.0⟩) := by
  unfold ECOSYSTEM_RISK_THRESHOLDS at h
  split_ifs at h with h1 h2 h3 h4
  · injection h with h'
    exact Or.inl ⟨h1, h'.symm⟩
  · injection h with h'
    exact Or.inr (Or.inl ⟨h2, h'.symm⟩)
  · injection h with h'
    exact Or.inr (Or.inr (Or.inl ⟨h3, h'.symm⟩))
  · injection h with h'
    exact Or.inr (Or.inr (Or.inr ⟨h4, h'.symm⟩))

/-- C2: for every recognized dimension the comparison is inclusive, so a value
exactly at a cutoff classifies at that cutoff's (more severe) tier, and a value
below every cutoff classifies as "minimal"; concretely for habitat_loss the six
listed evaluations hold. -/
theorem C2_cutoff_equality_classifies_at_severe_tier :
    (∀ rt th, ECOSYSTEM_RISK_THRESHOLDS rt = some th →
      (get_risk_level_by_threshold rt th.critical = "critical"
        ∧ get_risk_level_by_threshold rt th.high = "high"
        ∧ get_risk_level_by_threshold rt th.moderate = "moderate"
        ∧ get_risk_level_by_threshold rt th.low = "low")
      ∧ ∀ v, v < th.critical → v < th.high → v < th.moderate → v < th.low →
          get_risk_level_by_threshold rt v = "minimal")
    ∧ get_risk_level_by_threshold "habitat_loss" 0.05 = "minimal"
    ∧ get_risk_level_by_threshold "habitat_loss" 0.5 = "low"
    ∧ get_risk_level_by_threshold "habitat_loss" 1.0 = "moderate"
    ∧ get_risk_level_by_threshold "habitat_loss" 2.0 = "high"
    ∧ get_risk_level_by_threshold "habitat_loss" 4.0 = "critical"
    ∧ get_risk_level_by_threshold "habitat_loss" 10.0 = "critical" := by
  constructor
  · intro rt th h
    have hgen : ∀ v, v < th.critical → v < th.high → v < th.moderate → v < th.low →
        get_risk_level_by_threshold rt v = "minimal" := by
      intro v hv1 hv2 hv3 hv4
      unfold get_risk_level_by_threshold
      rw [h]
      dsimp only
      split_ifs <;> first | rfl | linarith
    refine ⟨?_, hgen⟩
    rcases table_cases rt th h with ⟨hrt, hth⟩ | ⟨hrt, hth⟩ | ⟨hrt, hth⟩ | ⟨hrt, hth⟩ <;>
        subst hrt <;> subst hth <;>
      refine ⟨?_, ?_, ?_, ?_⟩ <;>
      · simp only [get_risk_level_by_threshold, table_habitat_loss, table_annual_decline,
          table_transformation, table_protection_gap]
        norm_num
  · refine ⟨?_, ?_, ?_, ?_, ?_, ?_⟩ <;>
    · simp only [get_risk_level_by_threshold, table_habitat_loss]
      norm_num

/-- Witness for C2 at the habitat_loss dimension. -/
theorem C2_cutoff_equality_classifies_at_severe_tier_witness :
    get_risk_level_by_threshold "habitat_loss"
        (Thresholds.critical ⟨4.0, 2.0, 1.0, 0.5, 0.1⟩) = "critical"
    ∧ get_risk_level_by_threshold "habitat_loss" 0.05 = "minimal" :=
  ⟨((C2_cutoff_equality_classifies_at_severe_tier.1 "habitat_loss"
      ⟨4.0, 2.0, 1.0, 0.5, 0.1⟩ (by rfl)).1).1,
   C2_cutoff_equality_classifies_at_severe_tier.2.1⟩

/-- C6: unrecognized dimensions classify as "minimal", unrecognized threat
codes (including the empty string) get the Data Deficient fallback, and
unrecognized protection codes get the Unknown fallback; no error is raised. -/
theorem C6_unrecognized_codes_map_to_safe_defaults :
    (∀ rt v, rt ≠ "habitat_loss" → rt ≠ "annual_decline" → rt ≠ "transformation" →
      rt ≠ "protection_gap" → get_risk_level_by_threshold rt v = "minimal")
    ∧ (∀ code, code ≠ "CR" → code ≠ "EN" → code ≠ "VU" → code ≠ "NT" → code ≠ "LC" →
      get_threat_level_info code =
        ⟨"Data Deficient", "#cccccc", 0, "Classification pending or data deficient", code⟩)
    ∧ (∀ code, code ≠ "WP" → code ≠ "MP" → code ≠ "PP" → code ≠ "NP" →
      get_protection_level_info code =
        ⟨"Unknown", "#cccccc", "Protection status unknown", "unknown"⟩) := by
  refine ⟨?_, ?_, ?_⟩
  · intro rt v h1 h2 h3 h4
    unfold get_risk_level_by_threshold ECOSYSTEM_RISK_THRESHOLDS
    rw [if_neg h1, if_neg h2, if_neg h3, if_neg h4]
  · intro code h1 h2 h3 h4 h5
    by_cases hc : code = ""
    · subst hc
      rfl
    · have hTL : THREAT_LEVELS code = none := by
        unfold THREAT_LEVELS
        rw [if_neg h1, if_neg h2, if_neg h3, if_neg h4, if_neg h5, if_neg hc]
      have hTD : threatDescriptions code = none := by
        unfold threatDescriptions
        rw [if_neg h1, if_neg h2, if_neg h3, if_neg h4, if_neg h5]
      have hE : THREAT_LEVELS "" = some ⟨"Data Deficient", "#cccccc", 0⟩ := rfl
      simp only [get_threat_level_info, hTL, hTD, hE, Option.getD_some, Option.getD_none]
  · intro code h1 h2 h3 h4
    unfold get_protection_level_info
    rw [if_neg h1, if_neg h2, if_neg h3, if_neg h4]

/-- Witness for C6 at unrecognized inputs. -/
theorem C6_unrecognized_codes_map_to_safe_defaults_witness :
    get_risk_level_by_threshold "bogus" 3 = "minimal"
    ∧ get_threat_level_info "XX" =
        ⟨"Data Deficient", "#cccccc", 0, "Classification pending or data deficient", "XX"⟩
    ∧ get_protection_level_info "ZZ" =
        ⟨"Unknown", "#cccccc", "Protection status unknown", "unknown"⟩ :=
  ⟨C6_unrecognized_codes_map_to_safe_defaults.1 "bogus" 3
      (by decide) (by decide) (by decide) (by decide),
   C6_unrecognized_codes_map_to_safe_defaults.2.1 "XX"
      (by decide) (by decide) (by decide) (by decide) (by decide),
   C6_unrecognized_codes_map_to_safe_defaults.2.2 "ZZ"
      (by decide) (by decide) (by decide) (by decide)⟩

/-- C7: for a fixed dimension the classifier is monotone in its value argument
under the severity order critical > high > moderate > low > minimal. -/
theorem C7_classifier_monotone_in_value :
    ∀ rt v1 v2, v1 < v2 →
      severityRank (get_risk_level_by_threshold rt v1)
        ≤ severityRank (get_risk_level_by_threshold rt v2) := by
  intro rt v1 v2 hlt
  unfold get_risk_level_by_threshold
  cases hT : ECOSYSTEM_RISK_THRESHOLDS rt with
  | none => exact le_refl _
  | some th =>
    dsimp only
    split_ifs <;> first | decide | linarith

/-- Witness for C7 at concrete habitat_loss values. -/
theorem C7_classifier_monotone_in_value_witness :
    severityRank (get_risk_level_by_threshold "habitat_loss" 1)
      ≤ severityRank (get_risk_level_by_threshold "habitat_loss" 3) :=
  C7_classifier_monotone_in_value "habitat_loss" 1 3 (by norm_num)

/-- C9: the four dimensions carry exactly the config.py cutoffs, every
dimension's cutoffs strictly decrease down the severity order, and the
classifier equals a most-severe-first inclusive first-match scan. -/
theorem C9_strictly_decreasing_cutoffs_and_first_match :
    (ECOSYSTEM_RISK_THRESHOLDS "habitat_loss" = some ⟨4.0, 2.0, 1.0, 0.5, 0.1⟩
      ∧ ECOSYSTEM_RISK_THRESHOLDS "annual_decline" = some ⟨0.4, 0.2, 0.1, 0.05, 0.01⟩
      ∧ ECOSYSTEM_RISK_THRESHOLDS "transformation" = some ⟨50.0, 25.0, 15.0, 10.0, 5.0⟩
      ∧ ECOSYSTEM_RISK_THRESHOLDS "protection_gap" = some ⟨80.0, 60.0, 40.0, 20.0, 10.0⟩)
    ∧ (∀ rt th, ECOSYSTEM_RISK_THRESHOLDS rt = some th →
        th.critical > th.high ∧ th.high > th.moderate
          ∧ th.moderate > th.low ∧ th.low > th.minimal)
    ∧ (∀ rt th v, ECOSYSTEM_RISK_THRESHOLDS rt = some th →
        get_risk_level_by_threshold rt v = firstMatchLevel (severityCutoffList th) v) := by
  refine ⟨⟨rfl, rfl, rfl, rfl⟩, ?_, ?_⟩
  · intro rt th h
    rcases table_cases rt th h with ⟨_, hth⟩ | ⟨_, hth⟩ | ⟨_, hth⟩ | ⟨_, hth⟩ <;>
      subst hth <;> norm_num
  · intro rt th v h
    unfold get_risk_level_by_threshold
    rw [h]
    simp only [severityCutoffList, firstMatchLevel]

/-- Witness for C9 at the habitat_loss dimension. -/
theorem C9_strictly_decreasing_cutoffs_and_first_match_witness :
    get_risk_level_by_threshold "habitat_loss" 3
      = firstMatchLevel (severityCutoffList ⟨4.0, 2.0, 1.0, 0.5, 0.1⟩) 3 :=
  C9_strictly_decreasing_cutoffs_and_first_match.2.2 "habitat_loss"
    ⟨4.0, 2.0, 1.0, 0.5, 0.1⟩ 3 (by rfl)

/-- The urgency categorizer is the specification's per-score record applied to
the sum of the four specification contributions. -/
lemma categorize_eq (t : String) (d n : ℚ) (c : String) :
    categorize_ecosystem_urgency t d n c =
      specUrgencyResult (specUrgencyThreat t + specUrgencyDecline d
        + specUrgencyHabitat n + specUrgencyProtection c) := by
  simp only [categorize_ecosystem_urgency, specUrgencyResult, specUrgencyThreat,
    specUrgencyDecline, specUrgencyHabitat, specUrgencyProtection, zero_add]

lemma specUrgencyResult_score (s : ℤ) : (specUrgencyResult s).urgency_score = s := by
  unfold specUrgencyResult
  split_ifs <;> rfl

lemma specUrgencyResult_category (s : ℤ) :
    (specUrgencyResult s).category = specUrgencyCategory s := by
  unfold specUrgencyResult specUrgencyCategory
  split_ifs <;> rfl

lemma specUrgencyResult_timeframe (s : ℤ) :
    (specUrgencyResult s).timeframe
      = specUrgencyTimeframe (specUrgencyResult s).category := by
  unfold specUrgencyResult
  split_ifs <;> rfl

lemma specUrgencyResult_actions (s : ℤ) :
    (specUrgencyResult s).recommended_actions
      = specUrgencyActions (specUrgencyResult s).category := by
  unfold specUrgencyResult
  split_ifs <;> rfl

lemma specUrgencyResult_actions_length (s : ℤ) :
    2 ≤ (specUrgencyResult s).recommended_actions.length
      ∧ (specUrgencyResult s).recommended_actions.length ≤ 3 := by
  unfold specUrgencyResult
  split_ifs <;> simp

lemma specUrgencyThreat_range (t : String) :
    0 ≤ specUrgencyThreat t ∧ specUrgencyThreat t ≤ 4 := by
  unfold specUrgencyThreat
  split_ifs <;> decide

lemma specUrgencyDecline_range (d : ℚ) :
    0 ≤ specUrgencyDecline d ∧ specUrgencyDecline d ≤ 3 := by
  unfold specUrgencyDecline
  split_ifs <;> decide

lemma specUrgencyHabitat_range (n : ℚ) :
    0 ≤ specUrgencyHabitat n ∧ specUrgencyHabitat n ≤ 3 := by
  unfold specUrgencyHabitat
  split_ifs <;> decide

lemma specUrgencyProtection_range (c : String) :
    -1 ≤ specUrgencyProtection c ∧ specUrgencyProtection c ≤ 2 := by
  unfold specUrgencyProtection
  split_ifs <;> decide

/-- C3: the urgency score is exactly the sum of the four independent
contributions, lies in [-1,12], and the category, timeframe and 2-3 fixed
recommended actions are determined from the score by descending thresholds;
concretely assess("LC",0,80,"WP") = -1 "Low" and
assess("CR",0.35,20,"NP") = 12 "Emergency". -/
theorem C3_urgency_score_sum_and_category :
    (∀ t d n c,
      (categorize_ecosystem_urgency t d n c).urgency_score
          = specUrgencyThreat t + specUrgencyDecline d + specUrgencyHabitat n
            + specUrgencyProtection c
        ∧ (-1 ≤ (categorize_ecosystem_urgency t d n c).urgency_score
            ∧ (categorize_ecosystem_urgency t d n c).urgency_score ≤ 12)
        ∧ (categorize_ecosystem_urgency t d n c).category
            = specUrgencyCategory (categorize_ecosystem_urgency t d n c).urgency_score
        ∧ (categorize_ecosystem_urgency t d n c).timeframe
            = specUrgencyTimeframe (categorize_ecosystem_urgency t d n c).category
        ∧ (categorize_ecosystem_urgency t d n c).recommended_actions
            = specUrgencyActions (categorize_ecosystem_urgency t d n c).category
        ∧ 2 ≤ (categorize_ecosystem_urgency t d n c).recommended_actions.length
        ∧ (categorize_ecosystem_urgency t d n c).recommended_actions.length ≤ 3)
    ∧ (categorize_ecosystem_urgency "LC" 0 80 "WP").urgency_score = -1
    ∧ (categorize_ecosystem_urgency "LC" 0 80 "WP").category = "Low"
    ∧ (categorize_ecosystem_urgency "CR" 0.35 20 "NP").urgency_score = 12
    ∧ (categorize_ecosystem_urgency "CR" 0.35 20 "NP").category = "Emergency" := by
  constructor
  · intro t d n c
    have h1 := specUrgencyThreat_range t
    have h2 := specUrgencyDecline_range d
    have h3 := specUrgencyHabitat_range n
    have h4 := specUrgencyProtection_range c
    rw [categorize_eq]
    refine ⟨specUrgencyResult_score _, ?_, ?_, specUrgencyResult_timeframe _,
      specUrgencyResult_actions _, (specUrgencyResult_actions_length _).1,
      (specUrgencyResult_actions_length _).2⟩
    · rw [specUrgencyResult_score]
      constructor <;> omega
    · rw [specUrgencyResult_score]
      exact specUrgencyResult_category _
  · refine ⟨?_, ?_, ?_, ?_⟩ <;>
    · norm_num [categorize_ecosystem_urgency]
      try decide

/-- C4: with a nonzero national value the category follows the metric
direction: the lower-is-better bands for threat/decline/transformation/loss,
the mirrored higher-is-better bands for habitat/protection/natural, and the
distance-from-one bands otherwise; concretely compare(8,10,"threat") and
compare(12,10,"habitat") are both "Better". -/
theorem C4_performance_category_by_metric_direction :
    (∀ l n mt, n ≠ 0 →
      (calculate_performance_vs_national l n mt).category =
        (if mt = "threat" ∨ mt = "decline" ∨ mt = "transformation" ∨ mt = "loss" then
          specLowerCategory (l / n)
        else if mt = "habitat" ∨ mt = "protection" ∨ mt = "natural" then
          specHigherCategory (l / n)
        else specDefaultCategory (l / n)))
    ∧ (calculate_performance_vs_national 8 10 "threat").category = "Better"
    ∧ (calculate_performance_vs_national 12 10 "habitat").category = "Better" := by
  refine ⟨?_, ?_, ?_⟩
  · intro l n mt hn
    simp only [calculate_performance_vs_national, hn, if_false, ite_false,
      specLowerCategory, specHigherCategory, specDefaultCategory]
    split_ifs <;> rfl
  · norm_num [calculate_performance_vs_national]
    try decide
  · norm_num [calculate_performance_vs_national]
    try decide

/-- Witness for C4 at a concrete lower-is-better metric. -/
theorem C4_performance_category_by_metric_direction_witness :
    (calculate_performance_vs_national 8 10 "threat").category =
      (if ("threat" : String) = "threat" ∨ ("threat" : String) = "decline"
          ∨ ("threat" : String) = "transformation" ∨ ("threat" : String) = "loss" then
        specLowerCategory ((8 : ℚ) / 10)
      else if ("threat" : String) = "habitat" ∨ ("threat" : String) = "protection"
          ∨ ("threat" : String) = "natural" then
        specHigherCategory ((8 : ℚ) / 10)
      else specDefaultCategory ((8 : ℚ) / 10)) :=
  C4_performance_category_by_metric_direction.1 8 10 "threat" (by norm_num)

/-- Witness for C10 at a concrete nonzero national value. -/
theorem C10_result_shape_differs_between_branches_witness :
    (calculate_performance_vs_national 12 10 "habitat").local_value = some 12
    ∧ (calculate_performance_vs_national 12 10 "habitat").national_value = some 10
    ∧ ∃ s, (calculate_performance_vs_national 12 10 "habitat").delta_formatted = s ++ "pp" :=
  C10_result_shape_differs_between_branches.2 12 10 "habitat" (by norm_num)
